import Mathlib

/-!
Verification development for the UrbanScan teleoperation console core.

The JavaScript source (webrtc-admin React hooks and components) is embedded
shallowly: JS strings become `List Char`, JS numbers become `ℚ` (exact
arithmetic on the decimal values the protocol carries), pulse-width values
become `ℤ`, `NaN`-producing parses become `Option` results, and each React
state cluster becomes a Lean structure updated by pure transition functions.
Ambient effects (timers, the network) are passed in explicitly: the current
time `now : ℤ` in milliseconds and an elevation-service oracle.
-/

namespace UrbanScan

/-- Abbreviation: a JS string as its character sequence. -/
def str (s : String) : List Char := s.data

/-! ## JS string primitives

`String.prototype.split` with a one-character separator, and
`Array.prototype.join`, modelled structurally on `List Char`. -/

/-- JS `s.split(c)` for a single-character separator `c`. -/
def splitOnChar (c : Char) : List Char → List (List Char)
  | [] => [[]]
  | x :: xs =>
    if x = c then [] :: splitOnChar c xs
    else
      match splitOnChar c xs with
      | [] => [[x]]
      | y :: ys => (x :: y) :: ys

/-- JS `xs.join(c)` for a single-character separator `c`. -/
def joinChar (c : Char) : List (List Char) → List Char
  | [] => []
  | [xs] => xs
  | xs :: rest => xs ++ c :: joinChar c rest

/-! ## JS numeric conversions -/

/-- Numeric value of a decimal digit character. -/
def digitVal (c : Char) : ℕ := c.toNat - 48

/-- Value of a digit sequence read in base 10. -/
def digitsVal (ds : List Char) : ℕ := ds.foldl (fun a c => 10 * a + digitVal c) 0

/-- The whitespace characters `parseInt`/`parseFloat` skip. -/
def jsWhitespace (c : Char) : Bool := c = ' ' ∨ c = '\t' ∨ c = '\n' ∨ c = '\r'

/-- Digit-string prefix parse shared by `parseInt` after the sign:
`NaN` (here `none`) when no digit is present, else the value of the
longest digit prefix. -/
def jsParseIntFrom (sgn : ℤ) (s : List Char) : Option ℤ :=
  let ds := s.takeWhile Char.isDigit
  if ds.isEmpty then none else some (sgn * (digitsVal ds : ℤ))

/-- JS `parseInt(s, 10)`: leading whitespace, optional sign, longest digit
prefix; `NaN` becomes `none`. -/
def jsParseInt (s : List Char) : Option ℤ :=
  match s.dropWhile jsWhitespace with
  | '-' :: r => jsParseIntFrom (-1) r
  | '+' :: r => jsParseIntFrom 1 r
  | r => jsParseIntFrom 1 r

/-- Exponent digits of a JS float literal (empty digit run means the
exponent marker is ignored, as in `parseFloat("1e")`). -/
def jsExponentDigits (s : List Char) : ℤ :=
  match s with
  | '-' :: r => -(digitsVal (r.takeWhile Char.isDigit) : ℤ)
  | '+' :: r => (digitsVal (r.takeWhile Char.isDigit) : ℤ)
  | r => (digitsVal (r.takeWhile Char.isDigit) : ℤ)

/-- Exponent part applied by `parseFloat` when an `e`/`E` marker follows the
mantissa. -/
def jsExponentAt (s : List Char) : ℤ :=
  match s with
  | 'e' :: r => jsExponentDigits r
  | 'E' :: r => jsExponentDigits r
  | _ => 0

/-- Magnitude part of `parseFloat`: longest `digits [. digits] [exponent]`
prefix; `none` when no digit occurs in the mantissa. -/
def jsParseFloatMag (s : List Char) : Option ℚ :=
  let ip := s.takeWhile Char.isDigit
  let r1 := s.dropWhile Char.isDigit
  let fp : List Char :=
    match r1 with
    | '.' :: r => r.takeWhile Char.isDigit
    | _ => []
  let r2 : List Char :=
    match r1 with
    | '.' :: r => r.dropWhile Char.isDigit
    | _ => r1
  if ip.isEmpty ∧ fp.isEmpty then none
  else
    let mant : ℚ := (digitsVal ip : ℚ) + (digitsVal fp : ℚ) / 10 ^ fp.length
    some (mant * 10 ^ jsExponentAt r2)

/-- JS `parseFloat(s)` on finite decimal notation: leading whitespace,
optional sign, then the magnitude; `NaN` becomes `none`. -/
def jsParseFloat (s : List Char) : Option ℚ :=
  match s.dropWhile jsWhitespace with
  | '-' :: r => (jsParseFloatMag r).map (fun q => -q)
  | '+' :: r => jsParseFloatMag r
  | r => jsParseFloatMag r

/-- Decimal digits of `n`, most significant first, by division fuel. -/
def natToCharsCore : ℕ → ℕ → List Char
  | 0, _ => []
  | fuel + 1, n =>
    if n = 0 then [] else natToCharsCore fuel (n / 10) ++ [Nat.digitChar (n % 10)]

/-- JS string interpolation of a non-negative integer. -/
def natToChars (n : ℕ) : List Char := if n = 0 then ['0'] else natToCharsCore n n

/-- JS string interpolation of an integer (template literal `${n}`). -/
def intToChars (n : ℤ) : List Char :=
  if n < 0 then '-' :: natToChars (-n).toNat else natToChars n.toNat

/-- Zero-pad a digit string on the left to width 6. -/
def pad6 (s : List Char) : List Char := List.replicate (6 - s.length) '0' ++ s

/-- Magnitude part of JS `x.toFixed(6)`: round half-up at the sixth
decimal, then print six fractional digits. -/
def ratToFixed6Mag (q : ℚ) : List Char :=
  let n : ℕ := (⌊q * 1000000 + 1 / 2⌋).toNat
  natToChars (n / 1000000) ++ '.' :: pad6 (natToChars (n % 1000000))

/-- JS `x.toFixed(6)`: sign, then the rounded six-decimal magnitude. -/
def ratToFixed6 (q : ℚ) : List Char :=
  if q < 0 then '-' :: ratToFixed6Mag (-q) else ratToFixed6Mag q

/-! ## Common/utils.js -/

/-- `applyDeadzone` from `components/Common/utils.js`: inputs inside the
deadzone collapse to 0, the rest of the range is rescaled onto the full
interval. Polymorphic so the same code is read at `ℚ` (execution) and `ℝ`
(continuity). -/
def applyDeadzone {α : Type*} [LinearOrderedField α] (value deadzone : α) : α :=
  if |value| < deadzone then 0
  else if value > 0 then (value - deadzone) / (1 - deadzone)
  else (value + deadzone) / (1 - deadzone)

/-- `mapToPWM` from `components/Common/utils.js`: map `[-1, 1]` to
`[1000, 2000]` around the 1500 centre, with `Math.round`. -/
def mapToPWM (value : ℚ) : ℤ := round (1500 + value * 500)

/-- `limitCacheSize` from `components/Common/utils.js`: keep the cache, and
when it exceeds `maxSize` delete the oldest-inserted keys (JS object key
order is insertion order for these string keys). -/
def limitCacheSize {β : Type} (cache : List (List Char × β)) (maxSize : ℕ) :
    List (List Char × β) :=
  if cache.length ≤ maxSize then cache
  else cache.drop (cache.length - maxSize)

/-! ## Constants (components/Common/constants.js) -/

def JOYSTICK_DEADZONE : ℚ := 0.05

def THROTTLE_CHANGE_RATE : ℚ := 5

def MAX_ELEVATION_CACHE_SIZE : ℕ := 100

/-! ## JS object as an insertion-ordered association list -/

/-- JS spread-insert `{ ...cache, [k]: v }`: an existing key keeps its
position and takes the new value, a fresh key is appended. -/
def objectInsert {β : Type} (cache : List (List Char × β)) (k : List Char) (v : β) :
    List (List Char × β) :=
  if cache.any (fun kv => kv.1 = k) then
    cache.map (fun kv => if kv.1 = k then (k, v) else kv)
  else cache ++ [(k, v)]

/-- JS property read `cache[k]`. -/
def objectGet {β : Type} (cache : List (List Char × β)) (k : List Char) : Option β :=
  (cache.find? (fun kv => kv.1 = k)).map Prod.snd

/-! ## Elevation cache (useElevation hook and the LOCATION handler) -/

/-- The `{ elevation, lat, lng }` record cached per rounded coordinate. -/
structure ElevationEntry where
  elevation : ℚ
  lat : ℚ
  lng : ℚ
deriving DecidableEq

/-- The elevation cache: JS object keyed by `toFixed(6)` coordinates. -/
abbrev ElevationCache : Type := List (List Char × ElevationEntry)

/-- Cache key built as `` `${lat.toFixed(6)},${lng.toFixed(6)}` ``. -/
def cacheKey (lat lng : ℚ) : List Char := ratToFixed6 lat ++ ',' :: ratToFixed6 lng

/-- `setElevationCache(prev => limitCacheSize({ ...prev, [key]: v }, MAX))`. -/
def elevationInsert (cache : ElevationCache) (k : List Char) (v : ElevationEntry) :
    ElevationCache :=
  limitCacheSize (objectInsert cache k v) MAX_ELEVATION_CACHE_SIZE

/-- One cache-facing step: a lookup (pure, a hit mutates nothing) or a
post-fetch insertion. -/
inductive CacheOp where
  | get (k : List Char)
  | insert (k : List Char) (v : ElevationEntry)

/-- Effect of one operation on the cache. -/
def applyCacheOp (cache : ElevationCache) : CacheOp → ElevationCache
  | .get _ => cache
  | .insert k v => elevationInsert cache k v

/-- Run a sequence of cache operations from the initial empty object. -/
def runCacheOps (ops : List CacheOp) : ElevationCache :=
  ops.foldl applyCacheOp []

/-! ## Joystick sampler (useJoystick hook) -/

/-- The four RC channel pulse-width values held in `currentPWMValues`. -/
structure PWMValues where
  roll : ℤ
  pitch : ℤ
  throttle : ℤ
  yaw : ℤ
deriving DecidableEq

/-- `currentPWMValues` initial state (and reset values). -/
def neutralPWM : PWMValues := { roll := 1500, pitch := 1500, throttle := 1000, yaw := 1500 }

/-- Raw axis readings of one `pollJoystick` tick (already sign-adjusted as
in the source: `axes[0]`, `-axes[1]`, `axes[2]`, `-axes[3]`). -/
structure JoystickAxes where
  rawYaw : ℚ
  rawThrottle : ℚ
  rawRoll : ℚ
  rawPitch : ℚ

/-- Throttle channel update of one tick: integrative, only outside the
deadzone, clamped to `[1000, 2000]` and rounded. -/
def throttleTick (prev : ℤ) (rawThrottle : ℚ) : ℤ :=
  if |rawThrottle| > JOYSTICK_DEADZONE then
    round (max 1000 (min 2000 ((prev : ℚ) + rawThrottle * THROTTLE_CHANGE_RATE)))
  else prev

/-- The `setCurrentPWMValues` updater of `pollJoystick`: yaw/roll/pitch are
deadzoned and mapped absolutely, throttle integrates. -/
def pollJoystickPWM (prev : PWMValues) (a : JoystickAxes) : PWMValues :=
  { roll := mapToPWM (applyDeadzone a.rawRoll JOYSTICK_DEADZONE)
    pitch := mapToPWM (applyDeadzone a.rawPitch JOYSTICK_DEADZONE)
    throttle := throttleTick prev.throttle a.rawThrottle
    yaw := mapToPWM (applyDeadzone a.rawYaw JOYSTICK_DEADZONE) }

/-! ## Heartbeat failsafe (WebRTCAdmin component) -/

/-- The heartbeat-facing slice of the component state. -/
structure SessionView where
  connectionStatus : List Char
  heartbeatError : Bool
  lastHeartbeatTime : ℤ
deriving DecidableEq

/-- One firing of the 300 ms `checkInterval`: active video clears the
indicator unconditionally, otherwise the indicator reflects whether the
last signal is more than 5000 ms old. Nothing else is touched. -/
def heartbeatCheckTick (videoActive : Bool) (now : ℤ) (s : SessionView) : SessionView :=
  if videoActive then { s with heartbeatError := false }
  else if now - s.lastHeartbeatTime > 5000 then { s with heartbeatError := true }
  else { s with heartbeatError := false }

/-- The `"heartbeat"` branch of `handleOtherMessages`:
`setLastHeartbeatTime(Date.now())`. -/
def receiveHeartbeat (now : ℤ) (s : SessionView) : SessionView :=
  { s with lastHeartbeatTime := now }

/-- The liveness check fires every 300 ms. -/
def HEARTBEAT_CHECK_PERIOD : ℤ := 300

/-- Tick times `300, 600, ..., 300*n`. -/
def tickTimes (n : ℕ) : List ℤ :=
  (List.range n).map (fun k => HEARTBEAT_CHECK_PERIOD * ((k : ℤ) + 1))

/-! ## Data-channel telemetry state (WebRTCAdmin component) -/

/-- `captureStatus` state. -/
structure CaptureStatus where
  capturing : Bool
  lastCapture : Option (List Char)
  error : Option (List Char)
deriving DecidableEq

/-- `frames` record of `videoRecordingStatus`; `none` models the `NaN`
produced when `parseInt` fails on a count field. -/
structure FrameCounts where
  normal : Option ℤ
  thermal : Option ℤ
  thermalData : Option ℤ
deriving DecidableEq

/-- `videoRecordingStatus` state. -/
structure VideoRecordingStatus where
  recording : Bool
  timestamp : Option (List Char)
  frames : FrameCounts
  error : Option (List Char)
deriving DecidableEq

/-- `thermalSettings` state. -/
structure ThermalSettings where
  colormap : ℤ
  contrast : ℚ
  blur : ℤ
  rotation : ℤ
  threshold : ℤ
  detectRegions : Bool
  showHud : Bool
  detectionMode : List Char
deriving DecidableEq

/-- `currentLocation` record built by `handleLocationMessage`. -/
structure DroneLocation where
  lat : ℚ
  lon : ℚ
  alt : ℚ
  mslAlt : ℚ
  groundElevation : Option ℚ
  heightAboveGround : Option ℚ
deriving DecidableEq

/-- The slice of component state the data-channel handlers read and write. -/
structure DataState where
  lastHeartbeatTime : ℤ
  captureStatus : CaptureStatus
  captureSafeguardActive : Bool
  videoRecording : Bool
  videoRecordingStatus : VideoRecordingStatus
  thermalSettings : ThermalSettings
  droneLocation : Option DroneLocation
  elevationCache : ElevationCache
  lastValidAGL : Option ℚ
deriving DecidableEq

/-- Component state at mount (`useState` initial values). -/
def initDataState (mountTime : ℤ) : DataState :=
  { lastHeartbeatTime := mountTime
    captureStatus := { capturing := false, lastCapture := none, error := none }
    captureSafeguardActive := false
    videoRecording := false
    videoRecordingStatus :=
      { recording := false, timestamp := none
        frames := { normal := some 0, thermal := some 0, thermalData := some 0 }
        error := none }
    thermalSettings :=
      { colormap := 0, contrast := 1, blur := 0, rotation := 270, threshold := 30
        detectRegions := true, showHud := true, detectionMode := str ("over") }
    droneLocation := none
    elevationCache := []
    lastValidAGL := none }

/-- Outcome of one elevation-service fetch: HTTP+JSON success carrying the
first result's elevation (`none` when `results` is empty), or the
exception path. -/
inductive FetchResult where
  | ok (elevation : Option ℚ)
  | failed
deriving DecidableEq

/-- JS truthiness of an optional number (`0` is falsy). -/
def truthyQ : Option ℚ → Bool
  | none => false
  | some q => decide (q ≠ 0)

/-- Elevation acquisition for a location that moved beyond the 1e-4°
epsilon (or has no predecessor): cache hit, else one fetch whose success
also populates the cache; the exception path carries the previous ground
elevation forward when truthy. -/
def locationWithElevation (oracle : ℚ → ℚ → FetchResult) (s : DataState)
    (lat lon relAlt mslAlt : ℚ) : DataState :=
  let key := cacheKey lat lon
  match objectGet s.elevationCache key with
  | some entry =>
    let g := entry.elevation
    { s with
      droneLocation := some
        { lat := lat, lon := lon, alt := relAlt, mslAlt := mslAlt
          groundElevation := some g, heightAboveGround := some (mslAlt - g) }
      lastValidAGL := some (mslAlt - g) }
  | none =>
    match oracle lat lon with
    | .ok (some g) =>
      { s with
        droneLocation := some
          { lat := lat, lon := lon, alt := relAlt, mslAlt := mslAlt
            groundElevation := some g, heightAboveGround := some (mslAlt - g) }
        lastValidAGL := some (mslAlt - g)
        elevationCache := elevationInsert s.elevationCache key
          { elevation := g, lat := lat, lng := lon } }
    | .ok none =>
      { s with
        droneLocation := some
          { lat := lat, lon := lon, alt := relAlt, mslAlt := mslAlt
            groundElevation := none, heightAboveGround := none } }
    | .failed =>
      match s.droneLocation with
      | some d =>
        if truthyQ d.groundElevation then
          { s with
            droneLocation := some
              { lat := lat, lon := lon, alt := relAlt, mslAlt := mslAlt
                groundElevation := d.groundElevation
                heightAboveGround := (d.groundElevation).map (fun g => mslAlt - g) } }
        else
          { s with
            droneLocation := some
              { lat := lat, lon := lon, alt := relAlt, mslAlt := mslAlt
                groundElevation := none, heightAboveGround := none } }
      | none =>
        { s with
          droneLocation := some
            { lat := lat, lon := lon, alt := relAlt, mslAlt := mslAlt
              groundElevation := none, heightAboveGround := none } }

/-- `handleLocationMessage`: `LOCATION:` frames with exactly five parts and
four float-parsing fields update the drone position (with ground-elevation
augmentation); everything else is a no-op. -/
def handleLocationMessage (oracle : ℚ → ℚ → FetchResult) (msg : List Char)
    (s : DataState) : DataState :=
  if (str ("LOCATION:")).isPrefixOf msg then
    let parts := splitOnChar ':' msg
    if parts.length = 5 then
      match jsParseFloat (parts.getD 1 []), jsParseFloat (parts.getD 2 []),
            jsParseFloat (parts.getD 3 []), jsParseFloat (parts.getD 4 []) with
      | some lat, some lon, some relAlt, some mslAlt =>
        match s.droneLocation with
        | none => locationWithElevation oracle s lat lon relAlt mslAlt
        | some d =>
          if |d.lat - lat| > 1 / 10000 ∨ |d.lon - lon| > 1 / 10000 then
            locationWithElevation oracle s lat lon relAlt mslAlt
          else if truthyQ d.groundElevation then
            { s with
              droneLocation := some
                { lat := lat, lon := lon, alt := relAlt, mslAlt := mslAlt
                  groundElevation := d.groundElevation
                  heightAboveGround := (d.groundElevation).map (fun g => mslAlt - g) }
              lastValidAGL := (d.groundElevation).map (fun g => mslAlt - g) }
          else
            { s with
              droneLocation := some
                { lat := lat, lon := lon, alt := relAlt, mslAlt := mslAlt
                  groundElevation := none, heightAboveGround := none } }
      | _, _, _, _ => s
    else s
  else s

/-- `handleOtherMessages`: heartbeat token, capture acknowledgements,
recording updates and thermal status frames; anything else falls through
unchanged. -/
def handleOtherMessages (now : ℤ) (msg : List Char) (s : DataState) : DataState :=
  if msg = str ("heartbeat") then { s with lastHeartbeatTime := now }
  else if (str ("CAPTURE_SUCCESS:")).isPrefixOf msg then
    { s with captureSafeguardActive := false
             captureStatus :=
               { capturing := false
                 lastCapture := some ((splitOnChar ':' msg).getD 1 [])
                 error := none } }
  else if (str ("CAPTURE_ERROR:")).isPrefixOf msg then
    { s with captureSafeguardActive := false
             captureStatus :=
               { capturing := false, lastCapture := none
                 error := some (msg.drop (str ("CAPTURE_ERROR:")).length) } }
  else if (str ("VIDEO_STARTED:")).isPrefixOf msg then
    let parts := splitOnChar ':' msg
    if parts.length ≥ 2 then
      { s with videoRecordingStatus :=
                 { recording := true, timestamp := some (parts.getD 1 [])
                   frames := { normal := some 0, thermal := some 0, thermalData := some 0 }
                   error := none }
               videoRecording := true }
    else s
  else if (str ("VIDEO_STOPPED:")).isPrefixOf msg then
    let parts := splitOnChar ':' msg
    if parts.length ≥ 5 then
      { s with videoRecordingStatus :=
                 { recording := false, timestamp := some (parts.getD 1 [])
                   frames := { normal := jsParseInt (parts.getD 2 [])
                               thermal := jsParseInt (parts.getD 3 [])
                               thermalData := jsParseInt (parts.getD 4 []) }
                   error := none }
               videoRecording := false }
    else s
  else if (str ("VIDEO_ERROR:")).isPrefixOf msg then
    { s with videoRecordingStatus :=
               { s.videoRecordingStatus with
                 recording := false
                 error := some (msg.drop (str ("VIDEO_ERROR:")).length) }
             videoRecording := false }
  else if (str ("THERMAL_DETECT_REGIONS_STATUS:")).isPrefixOf msg then
    { s with thermalSettings :=
               { s.thermalSettings with
                 detectRegions := (splitOnChar ':' msg).getD 1 [] = str ("enabled") } }
  else if (str ("THERMAL_DETECTION_MODE_STATUS:")).isPrefixOf msg then
    { s with thermalSettings :=
               { s.thermalSettings with
                 detectionMode := (splitOnChar ':' msg).getD 1 [] } }
  else s

/-- `handleDataMessage`: every inbound frame is passed to the location
handler and then to the other-message handler. -/
def handleDataMessage (oracle : ℚ → ℚ → FetchResult) (now : ℤ) (msg : List Char)
    (s : DataState) : DataState :=
  handleOtherMessages now msg (handleLocationMessage oracle msg s)

/-! ## Peer-session lifecycle (useWebRTC hook) -/

/-- A `SimplePeer` instance as the hook observes it: construction options,
the events that currently have listeners attached, whether `destroy()` ran,
and the frames pushed through `send`. -/
structure PeerSession where
  initiator : Bool
  trickle : Bool
  listeners : List (List Char)
  destroyed : Bool
  sent : List (List Char)
deriving DecidableEq

/-- The `useWebRTC` hook state. `torn` is a ghost trace of sessions passed
through `cleanupPeer`, kept so teardown is observable. -/
structure WebRTCState where
  connectionStatus : List Char
  videoActive : Bool
  peer : Option PeerSession
  activeListeners : List (List Char)
  trackCount : ℕ
  torn : List PeerSession
deriving DecidableEq

/-- The events `cleanupPeer` strips with `removeAllListeners`. -/
def cleanupEvents : List (List Char) :=
  [str ("signal"), str ("connect"), str ("close"), str ("error"),
   str ("data"), str ("stream"), str ("track")]

/-- The listeners attached right after `new SimplePeer(...)` (the `data`
listener is attached later by the telemetry effect). -/
def newPeerListeners : List (List Char) :=
  [str ("signal"), str ("connect"), str ("close"), str ("error"),
   str ("stream"), str ("track")]

/-- `peer.removeAllListeners(e)` folded over a list of events. -/
def removeAllListenersOn (p : PeerSession) (events : List (List Char)) : PeerSession :=
  { p with listeners := p.listeners.filter (fun e => !(events.contains e)) }

/-- `cleanupPeer`: when a peer exists, strip its listeners, destroy it, and
clear the ref, the active-listener map and the track counter. -/
def cleanupPeer (s : WebRTCState) : WebRTCState :=
  match s.peer with
  | none => s
  | some p =>
    { s with peer := none
             activeListeners := []
             trackCount := 0
             torn := s.torn ++
               [{ removeAllListenersOn p cleanupEvents with destroyed := true }] }

/-- The inbound offer payload; `sdp` is optional and `otype` carries the
JS `type` field. -/
structure OfferData where
  sdp : Option (List Char)
  otype : List Char
deriving DecidableEq

/-- JS truthiness of an optional string (the empty string is falsy). -/
def truthyStr : Option (List Char) → Bool
  | none => false
  | some l => !l.isEmpty

/-- `handleOffer`: a missing or malformed offer returns immediately;
otherwise the previous peer is cleaned up and a fresh non-initiating,
non-trickling `SimplePeer` is installed with its creation listeners. -/
def handleOffer (s : WebRTCState) (offerData : Option OfferData) : WebRTCState :=
  match offerData with
  | none => s
  | some o =>
    if truthyStr o.sdp = false ∨ o.otype ≠ str ("offer") then s
    else
      let s1 := cleanupPeer s
      { s1 with trackCount := 0
                peer := some { initiator := false, trickle := false
                               listeners := newPeerListeners
                               destroyed := false, sent := [] } }

/-- `sendCommand`: without a peer, or without (connected or active video),
nothing happens; otherwise the command goes out on the data channel. -/
def sendCommand (s : WebRTCState) (command : List Char) : WebRTCState :=
  match s.peer with
  | none => s
  | some p =>
    if s.connectionStatus = str ("connected") ∨ s.videoActive = true then
      { s with peer := some { p with sent := p.sent ++ [command] } }
    else s

/-! ## Track classification (handleTrack in useWebRTC) -/

/-- An inbound `MediaStreamTrack` as the classifier sees it. -/
structure MediaTrack where
  kind : List Char
  id : List Char
deriving DecidableEq

/-- Track-classification state: the arrival counter, the two role slots and
the presence of the two video elements the roles bind to. -/
structure TrackState where
  trackCount : ℕ
  regular : Option MediaTrack
  thermal : Option MediaTrack
  regularRefPresent : Bool
  thermalRefPresent : Bool
deriving DecidableEq

/-- `handleTrack`: non-video tracks return before the counter moves; the
first video track binds the regular (primary) slot, the second binds the
thermal (secondary) slot, later ones only advance the counter. -/
def handleTrack (s : TrackState) (t : MediaTrack) : TrackState :=
  if t.kind ≠ str ("video") then s
  else
    let c := s.trackCount + 1
    if c = 1 ∧ s.regularRefPresent = true then
      { s with trackCount := c, regular := some t }
    else if c = 2 ∧ s.thermalRefPresent = true then
      { s with trackCount := c, thermal := some t }
    else { s with trackCount := c }

/-! ## Mission encoding (MapPanel.jsx) -/

/-- A drawn survey vertex, carried as the `${p.lat}`/`${p.lng}` tokens JS
interpolation produces for the two numbers. -/
structure GeoPoint where
  lat : List Char
  lng : List Char
deriving DecidableEq

/-- The five surveillance settings; the numeric four are the clamped
integers of the settings inputs. -/
structure SurveyParams where
  droneSpeed : ℤ
  surveillanceAltitude : ℤ
  surveillanceStyle : List Char
  lineSpacing : ℤ
  bufferZone : ℤ
deriving DecidableEq

/-- `finalizeArea`: fewer than three points alerts and leaves the flag;
otherwise the area becomes finalized. -/
def finalizeArea (points : List GeoPoint) (isAreaFinalized : Bool) : Bool :=
  if points.length < 3 then isAreaFinalized else true

/-- The command string built by `startSurveillanceMission`:
`START_SURVEILLANCE:<lat1>:<lng1>,...|<speed>:<altitude>:<style>:<spacing>:<buffer>`. -/
def encodeSurveillance (points : List GeoPoint) (ps : SurveyParams) : List Char :=
  let pointsStr := joinChar ',' (points.map (fun p => p.lat ++ ':' :: p.lng))
  let missionParams :=
    intToChars ps.droneSpeed ++ ':' ::
    (intToChars ps.surveillanceAltitude ++ ':' ::
    (ps.surveillanceStyle ++ ':' ::
    (intToChars ps.lineSpacing ++ ':' :: intToChars ps.bufferZone)))
  str ("START_SURVEILLANCE:") ++ pointsStr ++ '|' :: missionParams

/-- Modelled from the spec: the vehicle-side re-split of one
`<lat>:<lng>` item (the receiving planner is not part of this repository
slice; §4.5 fixes the wire grammar). -/
def decodePoint (s : List Char) : Option GeoPoint :=
  match splitOnChar ':' s with
  | [a, b] => some { lat := a, lng := b }
  | _ => none

/-- Modelled from the spec: the vehicle-side re-split of the parameter
block `<speed>:<altitude>:<style>:<lineSpacing>:<bufferZone>`. -/
def decodeParams (s : List Char) : Option SurveyParams :=
  match splitOnChar ':' s with
  | [sp, al, st, ls, bz] =>
    match jsParseInt sp, jsParseInt al, jsParseInt ls, jsParseInt bz with
    | some a, some b, some c, some d =>
      some { droneSpeed := a, surveillanceAltitude := b, surveillanceStyle := st
             lineSpacing := c, bufferZone := d }
    | _, _, _, _ => none
  | _ => none

/-- Modelled from the spec: the vehicle-side re-split of every item of the
comma-separated vertex list. -/
def decodePoints : List (List Char) → Option (List GeoPoint)
  | [] => some []
  | s :: rest =>
    match decodePoint s, decodePoints rest with
    | some p, some ps => some (p :: ps)
    | _, _ => none

/-- Modelled from the spec: the vehicle-side re-split of a full
`START_SURVEILLANCE` message into the vertex list and parameter tuple. -/
def decodeSurveillance (msg : List Char) : Option (List GeoPoint × SurveyParams) :=
  if (str ("START_SURVEILLANCE:")).isPrefixOf msg then
    match splitOnChar '|' (msg.drop (str ("START_SURVEILLANCE:")).length) with
    | [pointsStr, paramsStr] =>
      match decodePoints (splitOnChar ',' pointsStr), decodeParams paramsStr with
      | some pts, some ps => some (pts, ps)
      | _, _ => none
    | _ => none
  else none

/-- Characters JS number-to-string interpolation can emit for the finite
coordinates Leaflet hands the panel. -/
def jsNumberChar (c : Char) : Bool :=
  c.isDigit ∨ c = '.' ∨ c = '-' ∨ c = '+' ∨ c = 'e' ∨ c = 'E'

/-- A serialized-number token: nonempty and made of number characters. -/
def numToken (s : List Char) : Prop := s ≠ [] ∧ ∀ c ∈ s, jsNumberChar c = true

instance (s : List Char) : Decidable (numToken s) := by
  unfold numToken
  infer_instance

/-! ## Witness-support values -/

/-- An elevation oracle whose every fetch takes the exception path. -/
def failOracle : ℚ → ℚ → FetchResult := fun _ _ => FetchResult.failed

/-- An elevation oracle answering 430 m at (46.77, 23.59). -/
def oracle46 : ℚ → ℚ → FetchResult := fun la lo =>
  if la = 4677 / 100 ∧ lo = 2359 / 100 then FetchResult.ok (some 430)
  else FetchResult.failed

/-- A full cache of 100 distinct keys, oldest first. -/
def cache100 : ElevationCache :=
  (List.range 100).map (fun i => (natToChars i, { elevation := 0, lat := 0, lng := 0 }))

/-- A disconnected hook state with no peer. -/
def wsDisconnected : WebRTCState :=
  { connectionStatus := str ("disconnected"), videoActive := false, peer := none
    activeListeners := [], trackCount := 0, torn := [] }

/-- A freshly constructed peer session as `handleOffer` installs it. -/
def freshPeer : PeerSession :=
  { initiator := false, trickle := false, listeners := newPeerListeners
    destroyed := false, sent := [] }

/-- A connected hook state carrying a fresh peer. -/
def wsConnected : WebRTCState :=
  { connectionStatus := str ("connected"), videoActive := false
    peer := some freshPeer, activeListeners := [], trackCount := 0, torn := [] }

/-! # Helper lemmas -/

theorem splitOnChar_not_mem {c : Char} {xs : List Char} (h : c ∉ xs) :
    splitOnChar c xs = [xs] := by
  induction xs with
  | nil => rfl
  | cons a as ih =>
    simp only [List.mem_cons, not_or] at h
    rw [splitOnChar, if_neg (fun hac => h.1 hac.symm), ih h.2]

theorem splitOnChar_append_cons {c : Char} {xs : List Char} (rest : List Char)
    (h : c ∉ xs) : splitOnChar c (xs ++ c :: rest) = xs :: splitOnChar c rest := by
  induction xs with
  | nil => simp [splitOnChar]
  | cons a as ih =>
    simp only [List.mem_cons, not_or] at h
    rw [List.cons_append, splitOnChar, if_neg (fun hac => h.1 hac.symm), ih h.2]

theorem splitOnChar_joinChar {c : Char} (xss : List (List Char)) (hne : xss ≠ [])
    (hmem : ∀ xs ∈ xss, c ∉ xs) :
    splitOnChar c (joinChar c xss) = xss := by
  induction xss with
  | nil => exact absurd rfl hne
  | cons xs rest ih =>
    cases rest with
    | nil =>
      have h1 : joinChar c [xs] = xs := rfl
      rw [h1, splitOnChar_not_mem (hmem xs (List.mem_cons_self xs []))]
    | cons ys yss =>
      have h1 : joinChar c (xs :: ys :: yss) = xs ++ c :: joinChar c (ys :: yss) := rfl
      rw [h1, splitOnChar_append_cons _ (hmem xs (List.mem_cons_self _ _)),
        ih (List.cons_ne_nil _ _) (fun z hz => hmem z (List.mem_cons_of_mem _ hz))]

theorem mem_joinChar {c a : Char} {xss : List (List Char)}
    (h : a ∈ joinChar c xss) : a = c ∨ ∃ xs ∈ xss, a ∈ xs := by
  induction xss with
  | nil => simp [joinChar] at h
  | cons xs rest ih =>
    cases rest with
    | nil =>
      have h1 : joinChar c [xs] = xs := rfl
      rw [h1] at h
      exact Or.inr ⟨xs, List.mem_cons_self _ _, h⟩
    | cons ys yss =>
      have h1 : joinChar c (xs :: ys :: yss) = xs ++ c :: joinChar c (ys :: yss) := rfl
      rw [h1] at h
      rcases List.mem_append.mp h with hx | hcr
      · exact Or.inr ⟨xs, List.mem_cons_self _ _, hx⟩
      · rcases List.mem_cons.mp hcr with hac | hrest
        · exact Or.inl hac
        · rcases ih hrest with hc | ⟨zs, hzs, haz⟩
          · exact Or.inl hc
          · exact Or.inr ⟨zs, List.mem_cons_of_mem _ hzs, haz⟩

theorem isPrefixOf_append_self (p rest : List Char) :
    p.isPrefixOf (p ++ rest) = true := by
  rw [List.isPrefixOf_iff_prefix]
  exact List.prefix_append p rest

theorem not_isPrefixOf_append {p q : List Char} (h : p.isPrefixOf q = false)
    (hlen : p.length ≤ q.length) (rest : List Char) :
    p.isPrefixOf (q ++ rest) = false := by
  have hq : ¬ (p <+: q) := by
    rw [← List.isPrefixOf_iff_prefix, h]
    exact Bool.false_ne_true
  refine Bool.eq_false_iff.mpr (fun hT => hq ?_)
  have hp : p <+: q ++ rest := List.isPrefixOf_iff_prefix.mp hT
  exact List.prefix_of_prefix_length_le hp (List.prefix_append q rest) hlen

theorem head_append_ne {a b : Char} (hab : a ≠ b) (as bs rest : List Char) :
    (a :: as) ++ rest ≠ b :: bs := by
  simp [hab]

theorem throttleTick_bounds {prev : ℤ} (h1 : 1000 ≤ prev) (h2 : prev ≤ 2000)
    (a : ℚ) : 1000 ≤ throttleTick prev a ∧ throttleTick prev a ≤ 2000 := by
  unfold throttleTick
  split
  · set q : ℚ := max 1000 (min 2000 ((prev : ℚ) + a * THROTTLE_CHANGE_RATE)) with hq
    have hql : (1000 : ℚ) ≤ q := le_max_left _ _
    have hqu : q ≤ 2000 := max_le (by norm_num) (min_le_left _ _)
    rw [round_eq]
    constructor
    · rw [Int.le_floor]
      push_cast
      linarith
    · have hfl : (⌊q + 1 / 2⌋ : ℚ) ≤ q + 1 / 2 := Int.floor_le _
      have : (⌊q + 1 / 2⌋ : ℚ) < 2001 := by linarith
      exact_mod_cast Int.lt_add_one_iff.mp (by exact_mod_cast this)
  · exact ⟨h1, h2⟩

theorem throttle_fold_bounds (ticks : List JoystickAxes) :
    ∀ prev : PWMValues, 1000 ≤ prev.throttle → prev.throttle ≤ 2000 →
      1000 ≤ (ticks.foldl pollJoystickPWM prev).throttle ∧
        (ticks.foldl pollJoystickPWM prev).throttle ≤ 2000 := by
  induction ticks with
  | nil => exact fun prev h1 h2 => ⟨h1, h2⟩
  | cons a rest ih =>
    intro prev h1 h2
    have hstep := throttleTick_bounds h1 h2 a.rawThrottle
    exact ih (pollJoystickPWM prev a) hstep.1 hstep.2

/-- C4: starting from the neutral frame (throttle 1000), after any finite
sequence of joystick poll ticks the throttle channel stays within
`[1000, 2000]`. -/
theorem throttle_integration_invariant (ticks : List JoystickAxes) :
    1000 ≤ (ticks.foldl pollJoystickPWM neutralPWM).throttle ∧
      (ticks.foldl pollJoystickPWM neutralPWM).throttle ≤ 2000 :=
  throttle_fold_bounds ticks neutralPWM (by norm_num [neutralPWM]) (by norm_num [neutralPWM])

set_option maxRecDepth 100000 in
/-- C1: each 300 ms liveness tick clears the Degraded indicator whenever
video is flowing; otherwise it sets the indicator exactly when
`now - lastSignalAt` exceeds 5000 ms and clears it otherwise; a tick
changes nothing but the indicator (the session survives). Scenario: last
signal at t = 0, no video: folding the ticks up to t = 5400 ms shows the
indicator with the status untouched, and after a heartbeat at t = 5200 ms
the t = 5400 ms tick clears it. -/
theorem heartbeat_failsafe_timing :
    (∀ (now : ℤ) (s : SessionView),
      heartbeatCheckTick true now s = { s with heartbeatError := false }) ∧
    (∀ (now : ℤ) (s : SessionView),
      (heartbeatCheckTick false now s).heartbeatError
        = decide (now - s.lastHeartbeatTime > 5000)) ∧
    (∀ (v : Bool) (now : ℤ) (s : SessionView),
      (heartbeatCheckTick v now s).connectionStatus = s.connectionStatus ∧
        (heartbeatCheckTick v now s).lastHeartbeatTime = s.lastHeartbeatTime) ∧
    ((tickTimes 18).foldl (fun st t => heartbeatCheckTick false t st)
        { connectionStatus := str ("connected"), heartbeatError := false
          lastHeartbeatTime := 0 }
      = { connectionStatus := str ("connected"), heartbeatError := true
          lastHeartbeatTime := 0 }) ∧
    ((heartbeatCheckTick false 5400 (receiveHeartbeat 5200
        { connectionStatus := str ("connected"), heartbeatError := true
          lastHeartbeatTime := 0 })).heartbeatError = false) := by
  refine ⟨?_, ?_, ?_, by decide, by decide⟩
  · intro now s
    simp [heartbeatCheckTick]
  · intro now s
    by_cases h : now - s.lastHeartbeatTime > 5000 <;> simp [heartbeatCheckTick, h]
  · intro v now s
    cases v
    · by_cases h : 5000 < now - s.lastHeartbeatTime <;> simp [heartbeatCheckTick, h]
    · simp [heartbeatCheckTick]

/-- C10: `sendCommand` is a guarded no-op when control authority is
absent — no peer, or neither connected status nor active video, transmits
nothing and changes no state; with a peer and authority it appends exactly
the given command to the data channel. -/
theorem sendCommand_guarded (s : WebRTCState) (command : List Char) :
    (s.peer = none → sendCommand s command = s) ∧
    (s.connectionStatus ≠ str ("connected") → s.videoActive = false →
      sendCommand s command = s) ∧
    (∀ p, s.peer = some p →
      (s.connectionStatus = str ("connected") ∨ s.videoActive = true) →
      sendCommand s command
        = { s with peer := some { p with sent := p.sent ++ [command] } }) := by
  refine ⟨?_, ?_, ?_⟩
  · intro h
    unfold sendCommand
    rw [h]
  · intro hc hv
    cases hp : s.peer with
    | none => simp [sendCommand, hp]
    | some p => simp [sendCommand, hp, hc, hv]
  · intro p hp hauth
    rcases hauth with h | h <;> simp [sendCommand, hp, h]

/-- C10 witness: concrete guarded no-op (no peer) and a concrete
transmission when connected. -/
theorem sendCommand_guarded_witness :
    (sendCommand wsDisconnected (str ("AUTO_ARM")) = wsDisconnected) ∧
    (sendCommand wsConnected (str ("AUTO_ARM"))
      = { wsConnected with peer := some { freshPeer with sent := [str ("AUTO_ARM")] } }) := by
  constructor
  · exact (sendCommand_guarded wsDisconnected (str ("AUTO_ARM"))).1 rfl
  · have h := (sendCommand_guarded wsConnected (str ("AUTO_ARM"))).2.2 freshPeer rfl
      (Or.inl rfl)
    simpa [freshPeer] using h

/-- C7 counterexample: if only one video track ever arrives — here the
vehicle's second stream B — it binds the primary (regular) role; the
primary role does not stay unbound as claimed. -/
theorem track_only_second_stream_counterexample :
    handleTrack
        { trackCount := 0, regular := none, thermal := none
          regularRefPresent := true, thermalRefPresent := true }
        { kind := str ("video"), id := str ("B") }
      = { trackCount := 1
          regular := some { kind := str ("video"), id := str ("B") }
          thermal := none, regularRefPresent := true, thermalRefPresent := true } := by
  decide

/-- C7 amended: the first arriving video track binds the primary (regular)
role, the second binds the secondary (thermal) role, non-video tracks are
ignored without advancing the ordinal, later video tracks only advance the
counter; hence when only one video track ever arrives — even the vehicle's
second stream — it binds the primary role and the secondary role stays
unbound. -/
theorem track_classification_amended (s : TrackState) (t : MediaTrack) :
    (t.kind ≠ str ("video") → handleTrack s t = s) ∧
    (t.kind = str ("video") → s.trackCount = 0 → s.regularRefPresent = true →
      handleTrack s t = { s with trackCount := 1, regular := some t }) ∧
    (t.kind = str ("video") → s.trackCount = 1 → s.thermalRefPresent = true →
      handleTrack s t = { s with trackCount := 2, thermal := some t }) ∧
    (t.kind = str ("video") → 2 ≤ s.trackCount →
      handleTrack s t = { s with trackCount := s.trackCount + 1 }) := by
  refine ⟨?_, ?_, ?_, ?_⟩
  · intro h
    simp [handleTrack, h]
  · intro h hc href
    simp [handleTrack, h, hc, href]
  · intro h hc href
    simp [handleTrack, h, hc, href]
  · intro h hc
    have h1 : ¬(s.trackCount + 1 = 1) := by omega
    have h2 : ¬(s.trackCount + 1 = 2) := by omega
    simp [handleTrack, h, h1, h2]

/-- C7 witness: from a fresh session, video track A binds primary, then
video track B binds secondary. -/
theorem track_classification_amended_witness :
    (handleTrack
        { trackCount := 0, regular := none, thermal := none
          regularRefPresent := true, thermalRefPresent := true }
        { kind := str ("video"), id := str ("A") }
      = { trackCount := 1
          regular := some { kind := str ("video"), id := str ("A") }
          thermal := none, regularRefPresent := true, thermalRefPresent := true }) ∧
    (handleTrack
        { trackCount := 1
          regular := some { kind := str ("video"), id := str ("A") }
          thermal := none, regularRefPresent := true, thermalRefPresent := true }
        { kind := str ("video"), id := str ("Bt") }
      = { trackCount := 2
          regular := some { kind := str ("video"), id := str ("A") }
          thermal := some { kind := str ("video"), id := str ("Bt") }
          regularRefPresent := true, thermalRefPresent := true }) := by
  constructor
  · exact (track_classification_amended
      { trackCount := 0, regular := none, thermal := none
        regularRefPresent := true, thermalRefPresent := true }
      { kind := str ("video"), id := str ("A") }).2.1 rfl rfl rfl
  · exact (track_classification_amended
      { trackCount := 1
        regular := some { kind := str ("video"), id := str ("A") }
        thermal := none, regularRefPresent := true, thermalRefPresent := true }
      { kind := str ("video"), id := str ("Bt") }).2.2.1 rfl rfl rfl

/-- C3: `handleOffer` rejects a missing payload, a falsy `sdp` or a wrong
`type` with no state change at all; a well-formed offer tears the existing
peer down (its listeners stripped, the session destroyed, the listener map
and track counter cleared) and installs a fresh non-initiating peer with
candidate trickling disabled. -/
theorem negotiate_offer (s : WebRTCState) (o : OfferData) :
    (handleOffer s none = s) ∧
    (truthyStr o.sdp = false → handleOffer s (some o) = s) ∧
    (o.otype ≠ str ("offer") → handleOffer s (some o) = s) ∧
    (truthyStr o.sdp = true → o.otype = str ("offer") →
      ((s.peer = none →
        handleOffer s (some o) = { s with trackCount := 0, peer := some freshPeer }) ∧
      (∀ p, s.peer = some p →
        handleOffer s (some o)
          = { s with peer := some freshPeer
                     activeListeners := []
                     trackCount := 0
                     torn := s.torn ++
                       [{ p with
                          listeners :=
                            p.listeners.filter (fun e => !(cleanupEvents.contains e))
                          destroyed := true }] }) ∧
      (∀ p, s.peer = some p → (∀ e ∈ p.listeners, e ∈ cleanupEvents) →
        p.listeners.filter (fun e => !(cleanupEvents.contains e)) = []))) := by
  refine ⟨rfl, ?_, ?_, ?_⟩
  · intro h
    simp [handleOffer, h]
  · intro h
    simp [handleOffer, h]
  · intro h1 h2
    refine ⟨?_, ?_, ?_⟩
    · intro hp
      simp [handleOffer, h1, h2, cleanupPeer, hp, freshPeer]
    · intro p hp
      simp [handleOffer, h1, h2, cleanupPeer, hp, removeAllListenersOn, freshPeer]
    · intro p hp hsub
      rw [List.filter_eq_nil_iff]
      intro a ha
      rw [List.contains, List.elem_eq_true_of_mem (hsub a ha)]
      decide

/-- C3 witness: a concrete well-formed offer against a connected session
replaces the peer and leaves the old session destroyed with every listener
removed. -/
theorem negotiate_offer_witness :
    handleOffer wsConnected (some { sdp := some (str ("v=0")), otype := str ("offer") })
      = { wsConnected with
          peer := some freshPeer
          activeListeners := []
          trackCount := 0
          torn := [{ freshPeer with listeners := [], destroyed := true }] } := by
  have h := ((negotiate_offer wsConnected
      { sdp := some (str ("v=0")), otype := str ("offer") }).2.2.2 (by decide) rfl).2.1
      freshPeer rfl
  have hf : newPeerListeners.filter (fun e => !(cleanupEvents.contains e)) = [] := by decide
  rw [h]
  simp only [wsConnected, freshPeer, hf]
  decide

/-- C5 counterexample: at the default deadzone 0.05 the input x = 0.05
maps to 0 although `|x| < d` fails, so "zero iff `|x| < d`" is false as
stated. -/
theorem deadzone_boundary_counterexample :
    applyDeadzone (0.05 : ℚ) 0.05 = 0 ∧ (0.05 : ℚ) ≤ |(0.05 : ℚ)| := by
  have habs : |(0.05 : ℚ)| = 0.05 := abs_of_pos (by norm_num)
  constructor
  · rw [applyDeadzone, if_neg (by rw [habs]; norm_num), if_pos (by norm_num)]
    norm_num
  · rw [habs]

/-- C5 amended: for every deadzone d in [0, 1), `applyDeadzone x d = 0` iff
`|x| ≤ d`; outside the closed deadzone the value is the sign-preserving
linear rescale `(x ∓ d)/(1 - d)`; the function is continuous and reaches
±1 at x = ±1. -/
theorem deadzone_amended (d : ℝ) (h0 : 0 ≤ d) (h1 : d < 1) :
    (∀ x : ℝ, applyDeadzone x d = 0 ↔ |x| ≤ d) ∧
    (∀ x : ℝ, d < x → applyDeadzone x d = (x - d) / (1 - d)) ∧
    (∀ x : ℝ, x < -d → applyDeadzone x d = (x + d) / (1 - d)) ∧
    Continuous (fun x : ℝ => applyDeadzone x d) ∧
    applyDeadzone (1 : ℝ) d = 1 ∧
    applyDeadzone (-1 : ℝ) d = -1 := by
  have hd : (1 : ℝ) - d ≠ 0 := by linarith
  have hpos2 : ∀ x : ℝ, d < x → applyDeadzone x d = (x - d) / (1 - d) := by
    intro x hdx
    have hx0 : 0 < x := lt_of_le_of_lt h0 hdx
    rw [applyDeadzone, if_neg (by rw [not_lt]; exact le_trans (le_of_lt hdx) (le_abs_self x)),
      if_pos hx0]
  have hneg2 : ∀ x : ℝ, x < -d → applyDeadzone x d = (x + d) / (1 - d) := by
    intro x hdx
    have hx0 : ¬(0 < x) := by rw [not_lt]; linarith
    rw [applyDeadzone, if_neg (by rw [not_lt]; exact le_trans (by linarith [neg_le_abs x]) (le_refl _)),
      if_neg hx0]
  refine ⟨?_, hpos2, hneg2, ?_, ?_, ?_⟩
  · intro x
    constructor
    · intro hx
      rw [applyDeadzone] at hx
      split_ifs at hx with hlt hp
      · exact le_of_lt hlt
      · rcases div_eq_zero_iff.mp hx with h | h
        · have hxd : x = d := by linarith [sub_eq_zero.mp h]
          rw [hxd, abs_of_nonneg h0]
        · exact absurd h hd
      · rcases div_eq_zero_iff.mp hx with h | h
        · have hxd : x = -d := by linarith
          rw [hxd, abs_neg, abs_of_nonneg h0]
        · exact absurd h hd
    · intro hx
      rw [applyDeadzone]
      split_ifs with hlt hp
      · rfl
      · have hxd : x = d := by
          have habs : |x| = d := le_antisymm hx (not_lt.mp hlt)
          rwa [abs_of_pos hp] at habs
        rw [hxd, sub_self, zero_div]
      · have hxd : x = -d := by
          have habs : |x| = d := le_antisymm hx (not_lt.mp hlt)
          have := abs_of_nonpos (not_lt.mp hp) ▸ habs
          linarith
        rw [hxd, neg_add_cancel, zero_div]
  · have hfun : (fun x : ℝ => applyDeadzone x d)
        = fun x : ℝ => (max 0 (x - d) - max 0 (-x - d)) / (1 - d) := by
      funext x
      rw [applyDeadzone]
      split_ifs with hlt hp
      · rcases abs_lt.mp hlt with ⟨hl, hr⟩
        rw [max_eq_left (by linarith), max_eq_left (by linarith)]
        norm_num
      · have hxd : d ≤ x := by
          have := not_lt.mp hlt
          rwa [abs_of_pos hp] at this
        rw [max_eq_right (by linarith), max_eq_left (by linarith)]
        norm_num
      · have hxn : x ≤ 0 := not_lt.mp hp
        have hxd : d ≤ -x := by
          have := not_lt.mp hlt
          rwa [abs_of_nonpos hxn] at this
        rw [max_eq_left (by linarith), max_eq_right (by linarith)]
        ring
    rw [hfun]
    exact ((continuous_const.max (continuous_id.sub continuous_const)).sub
      (continuous_const.max (continuous_id.neg.sub continuous_const))).div_const _
  · rw [hpos2 1 h1, div_self hd]
  · rw [hneg2 (-1) (by linarith), show (-1 : ℝ) + d = -(1 - d) by ring, neg_div,
      div_self hd]

/-- C5 witness: the amended statement at the concrete deadzone 1/2, with
the endpoint and the boundary input 1/4. -/
theorem deadzone_amended_witness :
    applyDeadzone (1 : ℝ) (1 / 2) = 1 ∧
      (applyDeadzone (1 / 4 : ℝ) (1 / 2) = 0 ↔ |(1 / 4 : ℝ)| ≤ 1 / 2) := by
  constructor
  · exact (deadzone_amended (1 / 2) (by norm_num) (by norm_num)).2.2.2.2.1
  · exact (deadzone_amended (1 / 2) (by norm_num) (by norm_num)).1 (1 / 4)

theorem limitCacheSize_length_le {β : Type} (cache : List (List Char × β))
    (maxSize : ℕ) : (limitCacheSize cache maxSize).length ≤ maxSize := by
  unfold limitCacheSize
  split
  · assumption
  · rw [List.length_drop]
    omega

theorem limitCacheSize_succ {β : Type} (l : List (List Char × β)) (maxSize : ℕ)
    (h : l.length = maxSize + 1) : limitCacheSize l maxSize = l.tail := by
  unfold limitCacheSize
  rw [if_neg (by omega), h, Nat.succ_sub (le_refl maxSize), Nat.sub_self,
    List.drop_one]

theorem objectGet_none_any_false {β : Type} {cache : List (List Char × β)}
    {k : List Char} (h : objectGet cache k = none) :
    cache.any (fun kv => kv.1 = k) = false := by
  unfold objectGet at h
  rw [Option.map_eq_none'] at h
  rw [List.any_eq_false]
  intro kv hkv
  have := List.find?_eq_none.mp h kv hkv
  simpa using this

/-- C6: the elevation cache never exceeds 100 entries after any sequence of
gets and post-fetch insertions; a fresh-key insertion into a full cache
evicts exactly the head — the least-recently-inserted entry — and a
fresh-key insertion below the bound appends, so list order is insertion
order and eviction happens from the front. -/
theorem elevation_cache_bound (ops : List CacheOp) (cache : ElevationCache)
    (k : List Char) (v : ElevationEntry) :
    (runCacheOps ops).length ≤ MAX_ELEVATION_CACHE_SIZE ∧
    (objectGet cache k = none → cache.length = MAX_ELEVATION_CACHE_SIZE →
      elevationInsert cache k v = cache.tail ++ [(k, v)]) ∧
    (objectGet cache k = none → cache.length < MAX_ELEVATION_CACHE_SIZE →
      elevationInsert cache k v = cache ++ [(k, v)]) := by
  refine ⟨?_, ?_, ?_⟩
  · have general : ∀ (l : List CacheOp) (c : ElevationCache),
        c.length ≤ MAX_ELEVATION_CACHE_SIZE →
        (l.foldl applyCacheOp c).length ≤ MAX_ELEVATION_CACHE_SIZE := by
      intro l
      induction l with
      | nil => exact fun c hc => hc
      | cons op rest ih =>
        intro c hc
        cases op with
        | get key => exact ih c hc
        | insert key val => exact ih _ (limitCacheSize_length_le _ _)
    exact general ops [] (by simp [MAX_ELEVATION_CACHE_SIZE])
  · intro hget hlen
    unfold elevationInsert objectInsert
    rw [objectGet_none_any_false hget]
    simp only [Bool.false_eq_true, if_false]
    rw [limitCacheSize_succ _ _ (by rw [List.length_append, hlen]; rfl)]
    cases cache with
    | nil => simp [MAX_ELEVATION_CACHE_SIZE] at hlen
    | cons a t => simp
  · intro hget hlen
    unfold elevationInsert objectInsert limitCacheSize
    rw [objectGet_none_any_false hget]
    simp only [Bool.false_eq_true, if_false]
    rw [if_pos (by rw [List.length_append]; simpa using hlen)]

/-- C6 witness: inserting a fresh key into the concrete full 100-entry
cache keeps the size at 100 and evicts exactly the oldest entry. -/
theorem elevation_cache_bound_witness :
    elevationInsert cache100 (str ("k")) { elevation := 1, lat := 2, lng := 3 }
      = cache100.tail ++ [(str ("k"), { elevation := 1, lat := 2, lng := 3 })] :=
  (elevation_cache_bound [] cache100 (str ("k"))
      { elevation := 1, lat := 2, lng := 3 }).2.1 (by decide) (by decide)

theorem not_isPrefixOf_of_head {a b : Char} (hab : a ≠ b) (as bs : List Char) :
    (a :: as).isPrefixOf (b :: bs) = false := by
  simp [List.isPrefixOf, hab]

theorem isPrefixOf_head_ne {t u : String} {a b : Char} {as bs : List Char}
    (ht : str t = a :: as) (hu : str u = b :: bs) (hab : a ≠ b) (rest : List Char) :
    (str t).isPrefixOf (str u ++ rest) = false := by
  rw [ht, hu, List.cons_append]
  exact not_isPrefixOf_of_head hab _ _

theorem append_ne_str {p rest : List Char} {t : String} {a b : Char} {as bs : List Char}
    (hp : p = a :: as) (ht : str t = b :: bs) (hab : a ≠ b) : p ++ rest ≠ str t := by
  subst hp
  rw [ht]
  simp [hab]

theorem neq_prop_of_false {x : Bool} (h : x = false) : ¬(x = true) := by
  rw [h]
  exact Bool.false_ne_true

/-- A frame carrying the LOCATION prefix matches no branch of
`handleOtherMessages`. -/
theorem handleOther_noop_location (now : ℤ) (s : DataState) (rest : List Char) :
    handleOtherMessages now (str ("LOCATION:") ++ rest) s = s := by
  have h1 : str ("LOCATION:") ++ rest ≠ str ("heartbeat") :=
    append_ne_str rfl rfl (by decide)
  have h2 : (str ("CAPTURE_SUCCESS:")).isPrefixOf (str ("LOCATION:") ++ rest) = false :=
    isPrefixOf_head_ne rfl rfl (by decide) rest
  have h3 : (str ("CAPTURE_ERROR:")).isPrefixOf (str ("LOCATION:") ++ rest) = false :=
    isPrefixOf_head_ne rfl rfl (by decide) rest
  have h4 : (str ("VIDEO_STARTED:")).isPrefixOf (str ("LOCATION:") ++ rest) = false :=
    isPrefixOf_head_ne rfl rfl (by decide) rest
  have h5 : (str ("VIDEO_STOPPED:")).isPrefixOf (str ("LOCATION:") ++ rest) = false :=
    isPrefixOf_head_ne rfl rfl (by decide) rest
  have h6 : (str ("VIDEO_ERROR:")).isPrefixOf (str ("LOCATION:") ++ rest) = false :=
    isPrefixOf_head_ne rfl rfl (by decide) rest
  have h7 : (str ("THERMAL_DETECT_REGIONS_STATUS:")).isPrefixOf
      (str ("LOCATION:") ++ rest) = false :=
    isPrefixOf_head_ne rfl rfl (by decide) rest
  have h8 : (str ("THERMAL_DETECTION_MODE_STATUS:")).isPrefixOf
      (str ("LOCATION:") ++ rest) = false :=
    isPrefixOf_head_ne rfl rfl (by decide) rest
  unfold handleOtherMessages
  rw [if_neg h1, if_neg (neq_prop_of_false h2), if_neg (neq_prop_of_false h3),
    if_neg (neq_prop_of_false h4), if_neg (neq_prop_of_false h5),
    if_neg (neq_prop_of_false h6), if_neg (neq_prop_of_false h7),
    if_neg (neq_prop_of_false h8)]

/-- The split of a LOCATION frame starts with the literal first field. -/
theorem splitOnChar_location (rest : List Char) :
    splitOnChar ':' (str ("LOCATION:") ++ rest)
      = str ("LOCATION") :: splitOnChar ':' rest := by
  have h : str ("LOCATION:") ++ rest = str ("LOCATION") ++ ':' :: rest := rfl
  rw [h, splitOnChar_append_cons rest (by decide)]

/-- C2 counterexample: the VIDEO_STOPPED frame `VIDEO_STOPPED:1:x:y:z` has
the right field count but non-numeric count fields; it is not dropped as a
no-op — the handler applies it, storing `NaN` (here `none`) frame counts. -/
theorem inbound_decode_counterexample :
    ((handleDataMessage failOracle 0 (str ("VIDEO_STOPPED:1:x:y:z"))
        (initDataState 0)).videoRecordingStatus.timestamp = some (str ("1"))) ∧
    ((handleDataMessage failOracle 0 (str ("VIDEO_STOPPED:1:x:y:z"))
        (initDataState 0)).videoRecordingStatus.frames.normal = none) ∧
    ((initDataState 0).videoRecordingStatus.timestamp = none) ∧
    handleDataMessage failOracle 0 (str ("VIDEO_STOPPED:1:x:y:z"))
        (initDataState 0) ≠ initDataState 0 := by
  refine ⟨by decide, by decide, by decide, fun h => ?_⟩
  have hts := congrArg (fun st => st.videoRecordingStatus.timestamp) h
  have : some (str ("1")) = (none : Option (List Char)) := by
    calc some (str ("1"))
        = (handleDataMessage failOracle 0 (str ("VIDEO_STOPPED:1:x:y:z"))
            (initDataState 0)).videoRecordingStatus.timestamp := by decide
      _ = (initDataState 0).videoRecordingStatus.timestamp := hts
      _ = none := by decide
  exact Option.noConfusion this

/-- C2 amended: inbound decode is total and defensive for unknown prefixes
and for LOCATION field-count/float validation, and VIDEO_STOPPED frames
with a wrong field count are dropped; but a VIDEO_STOPPED frame with five
or more fields is applied even when its count fields are non-numeric,
storing `NaN` (`none`) counts instead of being dropped. -/
theorem inbound_decode_amended (oracle : ℚ → ℚ → FetchResult) (now : ℤ)
    (s : DataState) :
    (∀ msg : List Char,
      msg ≠ str ("heartbeat") →
      (str ("LOCATION:")).isPrefixOf msg = false →
      (str ("CAPTURE_SUCCESS:")).isPrefixOf msg = false →
      (str ("CAPTURE_ERROR:")).isPrefixOf msg = false →
      (str ("VIDEO_STARTED:")).isPrefixOf msg = false →
      (str ("VIDEO_STOPPED:")).isPrefixOf msg = false →
      (str ("VIDEO_ERROR:")).isPrefixOf msg = false →
      (str ("THERMAL_DETECT_REGIONS_STATUS:")).isPrefixOf msg = false →
      (str ("THERMAL_DETECTION_MODE_STATUS:")).isPrefixOf msg = false →
      handleDataMessage oracle now msg s = s) ∧
    (∀ rest : List Char,
      (splitOnChar ':' (str ("LOCATION:") ++ rest)).length ≠ 5 →
      handleDataMessage oracle now (str ("LOCATION:") ++ rest) s = s) ∧
    (∀ rest p1 p2 p3 p4 : List Char,
      splitOnChar ':' rest = [p1, p2, p3, p4] →
      (jsParseFloat p1 = none ∨ jsParseFloat p2 = none ∨ jsParseFloat p3 = none ∨
        jsParseFloat p4 = none) →
      handleDataMessage oracle now (str ("LOCATION:") ++ rest) s = s) ∧
    (∀ rest : List Char,
      (splitOnChar ':' (str ("VIDEO_STOPPED:") ++ rest)).length < 5 →
      handleDataMessage oracle now (str ("VIDEO_STOPPED:") ++ rest) s = s) ∧
    (∀ rest : List Char,
      5 ≤ (splitOnChar ':' (str ("VIDEO_STOPPED:") ++ rest)).length →
      handleDataMessage oracle now (str ("VIDEO_STOPPED:") ++ rest) s
        = { s with
            videoRecordingStatus :=
              { recording := false
                timestamp :=
                  some ((splitOnChar ':' (str ("VIDEO_STOPPED:") ++ rest)).getD 1 [])
                frames :=
                  { normal :=
                      jsParseInt ((splitOnChar ':' (str ("VIDEO_STOPPED:") ++ rest)).getD 2 [])
                    thermal :=
                      jsParseInt ((splitOnChar ':' (str ("VIDEO_STOPPED:") ++ rest)).getD 3 [])
                    thermalData :=
                      jsParseInt ((splitOnChar ':' (str ("VIDEO_STOPPED:") ++ rest)).getD 4 []) }
                error := none }
            videoRecording := false }) := by
  refine ⟨?_, ?_, ?_, ?_, ?_⟩
  · intro msg hhb hloc hcs hce hvs1 hvs2 hve htd1 htd2
    unfold handleDataMessage
    have h0 : handleLocationMessage oracle msg s = s := by
      unfold handleLocationMessage
      rw [if_neg (neq_prop_of_false hloc)]
    rw [h0]
    unfold handleOtherMessages
    rw [if_neg hhb, if_neg (neq_prop_of_false hcs), if_neg (neq_prop_of_false hce),
      if_neg (neq_prop_of_false hvs1), if_neg (neq_prop_of_false hvs2),
      if_neg (neq_prop_of_false hve), if_neg (neq_prop_of_false htd1),
      if_neg (neq_prop_of_false htd2)]
  · intro rest hlen
    unfold handleDataMessage
    have h0 : handleLocationMessage oracle (str ("LOCATION:") ++ rest) s = s := by
      unfold handleLocationMessage
      rw [if_pos (isPrefixOf_append_self _ _), if_neg hlen]
    rw [h0, handleOther_noop_location]
  · intro rest p1 p2 p3 p4 h0 hfail
    unfold handleDataMessage
    have hsplit : splitOnChar ':' (str ("LOCATION:") ++ rest)
        = [str ("LOCATION"), p1, p2, p3, p4] := by
      rw [splitOnChar_location, h0]
    have hloc : handleLocationMessage oracle (str ("LOCATION:") ++ rest) s = s := by
      unfold handleLocationMessage
      rw [if_pos (isPrefixOf_append_self _ _), hsplit]
      rw [if_pos (by simp)]
      simp only [List.getD_cons_succ, List.getD_cons_zero]
      rcases hfail with h | h | h | h <;>
        cases e1 : jsParseFloat p1 <;> cases e2 : jsParseFloat p2 <;>
        cases e3 : jsParseFloat p3 <;> cases e4 : jsParseFloat p4 <;>
        simp_all
    rw [hloc, handleOther_noop_location]
  · intro rest hlen
    unfold handleDataMessage
    have hloc : handleLocationMessage oracle (str ("VIDEO_STOPPED:") ++ rest) s = s := by
      unfold handleLocationMessage
      rw [if_neg (neq_prop_of_false (not_isPrefixOf_append (by decide) (by decide) rest))]
    rw [hloc]
    have h1 : str ("VIDEO_STOPPED:") ++ rest ≠ str ("heartbeat") :=
      append_ne_str rfl rfl (by decide)
    have h2 : (str ("CAPTURE_SUCCESS:")).isPrefixOf (str ("VIDEO_STOPPED:") ++ rest)
        = false := isPrefixOf_head_ne rfl rfl (by decide) rest
    have h3 : (str ("CAPTURE_ERROR:")).isPrefixOf (str ("VIDEO_STOPPED:") ++ rest)
        = false := isPrefixOf_head_ne rfl rfl (by decide) rest
    have h4 : (str ("VIDEO_STARTED:")).isPrefixOf (str ("VIDEO_STOPPED:") ++ rest)
        = false := not_isPrefixOf_append (by decide) (by decide) rest
    unfold handleOtherMessages
    rw [if_neg h1, if_neg (neq_prop_of_false h2), if_neg (neq_prop_of_false h3),
      if_neg (neq_prop_of_false h4), if_pos (isPrefixOf_append_self _ _),
      if_neg (by omega)]
  · intro rest hlen
    unfold handleDataMessage
    have hloc : handleLocationMessage oracle (str ("VIDEO_STOPPED:") ++ rest) s = s := by
      unfold handleLocationMessage
      rw [if_neg (neq_prop_of_false (not_isPrefixOf_append (by decide) (by decide) rest))]
    rw [hloc]
    have h1 : str ("VIDEO_STOPPED:") ++ rest ≠ str ("heartbeat") :=
      append_ne_str rfl rfl (by decide)
    have h2 : (str ("CAPTURE_SUCCESS:")).isPrefixOf (str ("VIDEO_STOPPED:") ++ rest)
        = false := isPrefixOf_head_ne rfl rfl (by decide) rest
    have h3 : (str ("CAPTURE_ERROR:")).isPrefixOf (str ("VIDEO_STOPPED:") ++ rest)
        = false := isPrefixOf_head_ne rfl rfl (by decide) rest
    have h4 : (str ("VIDEO_STARTED:")).isPrefixOf (str ("VIDEO_STOPPED:") ++ rest)
        = false := not_isPrefixOf_append (by decide) (by decide) rest
    unfold handleOtherMessages
    rw [if_neg h1, if_neg (neq_prop_of_false h2), if_neg (neq_prop_of_false h3),
      if_neg (neq_prop_of_false h4), if_pos (isPrefixOf_append_self _ _),
      if_pos hlen]

/-- C2 witness: a frame with an unknown prefix is an exact no-op, and the
malformed LOCATION frame `LOCATION:a:b:c:d` (non-float fields) is dropped. -/
theorem inbound_decode_amended_witness :
    (handleDataMessage failOracle 0 (str ("PING")) (initDataState 0)
      = initDataState 0) ∧
    (handleDataMessage failOracle 0 (str ("LOCATION:") ++ str ("a:b:c:d"))
        (initDataState 0) = initDataState 0) := by
  constructor
  · exact (inbound_decode_amended failOracle 0 (initDataState 0)).1 (str ("PING"))
      (by decide) (by decide) (by decide) (by decide) (by decide) (by decide)
      (by decide) (by decide) (by decide)
  · exact (inbound_decode_amended failOracle 0 (initDataState 0)).2.2.1
      (str ("a:b:c:d")) (str ("a")) (str ("b")) (str ("c")) (str ("d"))
      (by decide) (Or.inl (by decide))

/-- C8: a LOCATION frame with exactly four float-parsing fields, received
with no prior position and a cache miss, produces a position whose
`heightAboveGround` is the MSL altitude minus the fetched ground elevation
(which is also cached and mirrored into `lastValidAGL`); frames with a
wrong field count or a non-float field are dropped as no-ops. -/
theorem location_height_above_ground (oracle : ℚ → ℚ → FetchResult) (now : ℤ)
    (s : DataState) (rest p1 p2 p3 p4 : List Char)
    (lat lon relAlt mslAlt g : ℚ)
    (h0 : splitOnChar ':' rest = [p1, p2, p3, p4])
    (h1 : jsParseFloat p1 = some lat) (h2 : jsParseFloat p2 = some lon)
    (h3 : jsParseFloat p3 = some relAlt) (h4 : jsParseFloat p4 = some mslAlt)
    (h5 : s.droneLocation = none)
    (h6 : objectGet s.elevationCache (cacheKey lat lon) = none)
    (h7 : oracle lat lon = FetchResult.ok (some g)) :
    (handleDataMessage oracle now (str ("LOCATION:") ++ rest) s
      = { s with
          droneLocation := some
            { lat := lat, lon := lon, alt := relAlt, mslAlt := mslAlt
              groundElevation := some g, heightAboveGround := some (mslAlt - g) }
          lastValidAGL := some (mslAlt - g)
          elevationCache := elevationInsert s.elevationCache (cacheKey lat lon)
            { elevation := g, lat := lat, lng := lon } }) ∧
    (∀ badRest : List Char,
      (splitOnChar ':' (str ("LOCATION:") ++ badRest)).length ≠ 5 →
      handleDataMessage oracle now (str ("LOCATION:") ++ badRest) s = s) ∧
    (∀ (badRest q1 q2 q3 q4 : List Char),
      splitOnChar ':' badRest = [q1, q2, q3, q4] →
      (jsParseFloat q1 = none ∨ jsParseFloat q2 = none ∨ jsParseFloat q3 = none ∨
        jsParseFloat q4 = none) →
      handleDataMessage oracle now (str ("LOCATION:") ++ badRest) s = s) := by
  refine ⟨?_, ?_, ?_⟩
  · unfold handleDataMessage
    have hsplit : splitOnChar ':' (str ("LOCATION:") ++ rest)
        = [str ("LOCATION"), p1, p2, p3, p4] := by
      rw [splitOnChar_location, h0]
    have hloc : handleLocationMessage oracle (str ("LOCATION:") ++ rest) s
        = { s with
            droneLocation := some
              { lat := lat, lon := lon, alt := relAlt, mslAlt := mslAlt
                groundElevation := some g, heightAboveGround := some (mslAlt - g) }
            lastValidAGL := some (mslAlt - g)
            elevationCache := elevationInsert s.elevationCache (cacheKey lat lon)
              { elevation := g, lat := lat, lng := lon } } := by
      unfold handleLocationMessage
      rw [if_pos (isPrefixOf_append_self _ _), hsplit, if_pos (by simp)]
      simp only [List.getD_cons_succ, List.getD_cons_zero, h1, h2, h3, h4, h5]
      unfold locationWithElevation
      simp only [h6, h7]
    rw [hloc, handleOther_noop_location]
  · intro badRest hlen
    unfold handleDataMessage
    have hloc : handleLocationMessage oracle (str ("LOCATION:") ++ badRest) s = s := by
      unfold handleLocationMessage
      rw [if_pos (isPrefixOf_append_self _ _), if_neg hlen]
    rw [hloc, handleOther_noop_location]
  · intro badRest q1 q2 q3 q4 hq hfail
    unfold handleDataMessage
    have hsplit : splitOnChar ':' (str ("LOCATION:") ++ badRest)
        = [str ("LOCATION"), q1, q2, q3, q4] := by
      rw [splitOnChar_location, hq]
    have hloc : handleLocationMessage oracle (str ("LOCATION:") ++ badRest) s = s := by
      unfold handleLocationMessage
      rw [if_pos (isPrefixOf_append_self _ _), hsplit, if_pos (by simp)]
      simp only [List.getD_cons_succ, List.getD_cons_zero]
      rcases hfail with h | h | h | h <;>
        cases e1 : jsParseFloat q1 <;> cases e2 : jsParseFloat q2 <;>
        cases e3 : jsParseFloat q3 <;> cases e4 : jsParseFloat q4 <;>
        simp_all
    rw [hloc, handleOther_noop_location]

/-- C8 witness: `LOCATION:46.77:23.59:12.0:450.0` with an elevation lookup
returning 430 for (46.77, 23.59) yields heightAboveGround = 20. -/
theorem location_height_above_ground_witness :
    handleDataMessage oracle46 0
        (str ("LOCATION:") ++ str ("46.77:23.59:12.0:450.0")) (initDataState 0)
      = { initDataState 0 with
          droneLocation := some
            { lat := 4677 / 100, lon := 2359 / 100, alt := 12, mslAlt := 450
              groundElevation := some 430, heightAboveGround := some 20 }
          lastValidAGL := some 20
          elevationCache := elevationInsert (initDataState 0).elevationCache
            (cacheKey (4677 / 100) (2359 / 100))
            { elevation := 430, lat := 4677 / 100, lng := 2359 / 100 } } := by
  have hp1 : jsParseFloat (str ("46.77")) = some (4677 / 100) := by
    simp +decide [jsParseFloat, jsParseFloatMag, jsExponentAt, jsExponentDigits,
      digitsVal, digitVal, str, jsWhitespace, List.dropWhile, List.takeWhile]
    norm_num
  have hp2 : jsParseFloat (str ("23.59")) = some (2359 / 100) := by
    simp +decide [jsParseFloat, jsParseFloatMag, jsExponentAt, jsExponentDigits,
      digitsVal, digitVal, str, jsWhitespace, List.dropWhile, List.takeWhile]
    norm_num
  have hp3 : jsParseFloat (str ("12.0")) = some 12 := by
    simp +decide [jsParseFloat, jsParseFloatMag, jsExponentAt, jsExponentDigits,
      digitsVal, digitVal, str, jsWhitespace, List.dropWhile, List.takeWhile]
  have hp4 : jsParseFloat (str ("450.0")) = some 450 := by
    simp +decide [jsParseFloat, jsParseFloatMag, jsExponentAt, jsExponentDigits,
      digitsVal, digitVal, str, jsWhitespace, List.dropWhile, List.takeWhile]
  have hor : oracle46 (4677 / 100) (2359 / 100) = FetchResult.ok (some 430) := by
    simp [oracle46]
  have h := (location_height_above_ground oracle46 0 (initDataState 0)
      (str ("46.77:23.59:12.0:450.0")) (str ("46.77")) (str ("23.59"))
      (str ("12.0")) (str ("450.0")) (4677 / 100) (2359 / 100) 12 450 430
      (by decide) hp1 hp2 hp3 hp4 rfl rfl hor).1
  rw [h]
  norm_num

set_option maxRecDepth 40000 in
theorem intToChars_digits_fin : ∀ m : Fin 121,
    jsParseInt (intToChars ((m : ℕ) : ℤ)) = some ((m : ℕ) : ℤ) ∧
    ∀ c ∈ intToChars ((m : ℕ) : ℤ), c.isDigit = true := by decide

theorem intToChars_range {n : ℤ} (h0 : 0 ≤ n) (h1 : n ≤ 120) :
    jsParseInt (intToChars n) = some n ∧ ∀ c ∈ intToChars n, c.isDigit = true := by
  have hlt : n.toNat < 121 := by omega
  have h := intToChars_digits_fin ⟨n.toNat, hlt⟩
  have hcast : (((⟨n.toNat, hlt⟩ : Fin 121) : ℕ) : ℤ) = n := by
    simp [Int.toNat_of_nonneg h0]
  rw [hcast] at h
  exact h

theorem intToChars_not_mem {n : ℤ} (h0 : 0 ≤ n) (h1 : n ≤ 120) {c : Char}
    (hc : c.isDigit = false) : c ∉ intToChars n := by
  intro hm
  have := (intToChars_range h0 h1).2 c hm
  rw [hc] at this
  exact Bool.false_ne_true this

theorem numToken_not_mem {s : List Char} (h : numToken s) {c : Char}
    (hc : jsNumberChar c = false) : c ∉ s := by
  intro hm
  have := h.2 c hm
  rw [hc] at this
  exact Bool.false_ne_true this

theorem comma_not_mem_pointItem {p : GeoPoint} (h1 : numToken p.lat)
    (h2 : numToken p.lng) : ',' ∉ p.lat ++ ':' :: p.lng := by
  intro hm
  rcases List.mem_append.mp hm with ha | hb
  · exact numToken_not_mem h1 (by decide) ha
  · rcases List.mem_cons.mp hb with hc | hd
    · exact absurd hc (by decide)
    · exact numToken_not_mem h2 (by decide) hd

theorem pipe_not_mem_pointsStr (points : List GeoPoint)
    (h : ∀ p ∈ points, numToken p.lat ∧ numToken p.lng) :
    '|' ∉ joinChar ',' (points.map (fun p => p.lat ++ ':' :: p.lng)) := by
  intro hmem
  rcases mem_joinChar hmem with hc | ⟨xs, hxs, hin⟩
  · exact absurd hc (by decide)
  · rcases List.mem_map.mp hxs with ⟨p, hp, rfl⟩
    rcases List.mem_append.mp hin with h1 | h2
    · exact numToken_not_mem (h p hp).1 (by decide) h1
    · rcases List.mem_cons.mp h2 with hc | h3
      · exact absurd hc (by decide)
      · exact numToken_not_mem (h p hp).2 (by decide) h3

theorem decodePoints_map (points : List GeoPoint)
    (h : ∀ p ∈ points, numToken p.lat ∧ numToken p.lng) :
    decodePoints (points.map (fun p => p.lat ++ ':' :: p.lng)) = some points := by
  induction points with
  | nil => rfl
  | cons p ps ih =>
    have hp := h p (List.mem_cons_self _ _)
    have hdp : decodePoint (p.lat ++ ':' :: p.lng) = some p := by
      obtain ⟨plat, plng⟩ := p
      unfold decodePoint
      rw [splitOnChar_append_cons _ (numToken_not_mem hp.1 (by decide)),
        splitOnChar_not_mem (numToken_not_mem hp.2 (by decide))]
    rw [List.map_cons]
    unfold decodePoints
    rw [hdp, ih (fun q hq => h q (List.mem_cons_of_mem _ hq))]

theorem decodeSurveillance_append (A B : List Char) (hA : '|' ∉ A) (hB : '|' ∉ B) :
    decodeSurveillance (str ("START_SURVEILLANCE:") ++ (A ++ '|' :: B))
      = match decodePoints (splitOnChar ',' A), decodeParams B with
        | some pts, some ps => some (pts, ps)
        | _, _ => none := by
  unfold decodeSurveillance
  rw [if_pos (isPrefixOf_append_self _ _), List.drop_left,
    splitOnChar_append_cons _ hA, splitOnChar_not_mem hB]

/-- C9: `finalizeArea` leaves areas of fewer than three vertices unmarked
and accepts areas with at least three; and for every finalized area whose
vertices are serialized-number tokens and every in-range parameter tuple,
re-splitting the encoded `START_SURVEILLANCE` message reconstructs the
vertex list and the parameter tuple exactly. -/
theorem mission_finalize_encode (points : List GeoPoint) (ps : SurveyParams)
    (flag : Bool) :
    (points.length < 3 → finalizeArea points flag = flag) ∧
    (3 ≤ points.length → finalizeArea points flag = true) ∧
    ((∀ p ∈ points, numToken p.lat ∧ numToken p.lng) →
      3 ≤ points.length →
      (ps.surveillanceStyle = str ("longest") ∨ ps.surveillanceStyle = str ("shortest")) →
      1 ≤ ps.droneSpeed → ps.droneSpeed ≤ 15 →
      10 ≤ ps.surveillanceAltitude → ps.surveillanceAltitude ≤ 120 →
      5 ≤ ps.lineSpacing → ps.lineSpacing ≤ 50 →
      0 ≤ ps.bufferZone → ps.bufferZone ≤ 20 →
      decodeSurveillance (encodeSurveillance points ps) = some (points, ps)) := by
  refine ⟨?_, ?_, ?_⟩
  · intro h
    unfold finalizeArea
    rw [if_pos h]
  · intro h
    unfold finalizeArea
    rw [if_neg (by omega)]
  · intro hnum hlen hstyle hs1 hs2 ha1 ha2 hl1 hl2 hb1 hb2
    have hstC : ':' ∉ ps.surveillanceStyle := by
      rcases hstyle with h | h <;> rw [h] <;> decide
    have hpipeP : '|' ∉ joinChar ',' (points.map (fun p => p.lat ++ ':' :: p.lng)) :=
      pipe_not_mem_pointsStr points hnum
    have hpipeM : '|' ∉ intToChars ps.droneSpeed ++ ':' ::
        (intToChars ps.surveillanceAltitude ++ ':' ::
        (ps.surveillanceStyle ++ ':' ::
        (intToChars ps.lineSpacing ++ ':' :: intToChars ps.bufferZone))) := by
      intro hm
      rcases List.mem_append.mp hm with h | h
      · exact intToChars_not_mem (by omega) (by omega) (by decide) h
      rcases List.mem_cons.mp h with h | h
      · exact absurd h (by decide)
      rcases List.mem_append.mp h with h | h
      · exact intToChars_not_mem (by omega) (by omega) (by decide) h
      rcases List.mem_cons.mp h with h | h
      · exact absurd h (by decide)
      rcases List.mem_append.mp h with h | h
      · rcases hstyle with hs | hs <;> rw [hs] at h <;> exact absurd h (by decide)
      rcases List.mem_cons.mp h with h | h
      · exact absurd h (by decide)
      rcases List.mem_append.mp h with h | h
      · exact intToChars_not_mem (by omega) (by omega) (by decide) h
      rcases List.mem_cons.mp h with h | h
      · exact absurd h (by decide)
      · exact intToChars_not_mem (by omega) (by omega) (by decide) h
    have hAeq : decodePoints (splitOnChar ','
        (joinChar ',' (points.map (fun p => p.lat ++ ':' :: p.lng)))) = some points := by
      have hne : points.map (fun p => p.lat ++ ':' :: p.lng) ≠ [] := by
        intro hnil
        rw [List.map_eq_nil_iff] at hnil
        rw [hnil] at hlen
        simp at hlen
      have hcommas : ∀ xs ∈ points.map (fun p => p.lat ++ ':' :: p.lng), ',' ∉ xs := by
        intro xs hxs
        rcases List.mem_map.mp hxs with ⟨p, hp, rfl⟩
        exact comma_not_mem_pointItem (hnum p hp).1 (hnum p hp).2
      rw [splitOnChar_joinChar _ hne hcommas, decodePoints_map points hnum]
    have hBeq : decodeParams (intToChars ps.droneSpeed ++ ':' ::
        (intToChars ps.surveillanceAltitude ++ ':' ::
        (ps.surveillanceStyle ++ ':' ::
        (intToChars ps.lineSpacing ++ ':' :: intToChars ps.bufferZone))))
        = some ps := by
      unfold decodeParams
      rw [splitOnChar_append_cons _ (intToChars_not_mem (by omega) (by omega) (by decide)),
        splitOnChar_append_cons _ (intToChars_not_mem (by omega) (by omega) (by decide)),
        splitOnChar_append_cons _ hstC,
        splitOnChar_append_cons _ (intToChars_not_mem (by omega) (by omega) (by decide)),
        splitOnChar_not_mem (intToChars_not_mem (by omega) (by omega) (by decide))]
      simp only [(intToChars_range (show (0:ℤ) ≤ ps.droneSpeed by omega)
          (show ps.droneSpeed ≤ 120 by omega)).1,
        (intToChars_range (show (0:ℤ) ≤ ps.surveillanceAltitude by omega)
          (show ps.surveillanceAltitude ≤ 120 by omega)).1,
        (intToChars_range (show (0:ℤ) ≤ ps.lineSpacing by omega)
          (show ps.lineSpacing ≤ 120 by omega)).1,
        (intToChars_range (show (0:ℤ) ≤ ps.bufferZone by omega)
          (show ps.bufferZone ≤ 120 by omega)).1]
    unfold encodeSurveillance
    rw [List.append_assoc, decodeSurveillance_append _ _ hpipeP hpipeM, hAeq, hBeq]

/-- C9 witness: a concrete three-vertex area with the default parameter
tuple is accepted by finalize and round-trips through the encoded
`START_SURVEILLANCE` message. -/
theorem mission_finalize_encode_witness :
    (finalizeArea
        [{ lat := str ("46.77"), lng := str ("23.59") },
         { lat := str ("46.78"), lng := str ("23.6") },
         { lat := str ("46.76"), lng := str ("23.58") }] false = true) ∧
    (decodeSurveillance (encodeSurveillance
        [{ lat := str ("46.77"), lng := str ("23.59") },
         { lat := str ("46.78"), lng := str ("23.6") },
         { lat := str ("46.76"), lng := str ("23.58") }]
        { droneSpeed := 5, surveillanceAltitude := 30
          surveillanceStyle := str ("longest"), lineSpacing := 15, bufferZone := 5 })
      = some ([{ lat := str ("46.77"), lng := str ("23.59") },
               { lat := str ("46.78"), lng := str ("23.6") },
               { lat := str ("46.76"), lng := str ("23.58") }],
              { droneSpeed := 5, surveillanceAltitude := 30
                surveillanceStyle := str ("longest"), lineSpacing := 15
                bufferZone := 5 })) := by
  constructor
  · exact (mission_finalize_encode
      [{ lat := str ("46.77"), lng := str ("23.59") },
       { lat := str ("46.78"), lng := str ("23.6") },
       { lat := str ("46.76"), lng := str ("23.58") }]
      { droneSpeed := 5, surveillanceAltitude := 30
        surveillanceStyle := str ("longest"), lineSpacing := 15, bufferZone := 5 }
      false).2.1 (by decide)
  · exact (mission_finalize_encode
      [{ lat := str ("46.77"), lng := str ("23.59") },
       { lat := str ("46.78"), lng := str ("23.6") },
       { lat := str ("46.76"), lng := str ("23.58") }]
      { droneSpeed := 5, surveillanceAltitude := 30
        surveillanceStyle := str ("longest"), lineSpacing := 15, bufferZone := 5 }
      false).2.2 (by decide) (by decide) (Or.inl rfl) (by decide) (by decide)
      (by decide) (by decide) (by decide) (by decide) (by decide) (by decide)
